import Mathlib

/-!
Verification of the geometry and synchronization engine of
`ai_diffusion/document.py`.

The embedding is a shallow one: the module's functions become Lean
functions over plain values.  The value types `Extent`, `Bounds`, `Mask`,
`Image` come from the repository's `image.py`, which is not part of the
sources at hand, so those definitions are modelled from the specification
(each is marked as such in its doc comment).  Host (Krita) objects —
documents, selections, layer nodes — are embedded as records of the data
the code reads from them, and host operations the code merely calls
through (selection grow/feather, pose reconciliation, sibling insertion)
are either parameters of the embedding or modelled from the
specification's description of the host interface.
-/

/-- Width/height pair (`Extent` of image.py, reached here via `Document.extent`). -/
structure Extent where
  width : ℕ
  height : ℕ
deriving DecidableEq

/-- Modelled from the spec: `Extent.pixel_count` of image.py (missing from src):
`width * height`. -/
def Extent.pixel_count (e : Extent) : ℕ := e.width * e.height

/-- Positioned rectangle in document pixel space (`Bounds` of image.py). -/
structure Bounds where
  x : ℤ
  y : ℤ
  width : ℕ
  height : ℕ
deriving DecidableEq

/-- The size of a `Bounds`. -/
def Bounds.extent (b : Bounds) : Extent := ⟨b.width, b.height⟩

/-- Round `n` up to the next multiple of `m` (trailing-edge padding). -/
def roundUpMultiple (n m : ℕ) : ℕ := if m = 0 then n else m * ((n + m - 1) / m)

/-- Modelled from the spec: `Bounds.pad` of image.py (missing from src): expand
the rectangle by `margin` pixels on every side, then round width and height up
to the next multiple of `multiple`; no clamping is performed here. -/
def Bounds.pad (b : Bounds) (margin : ℕ) (multiple : ℕ) : Bounds :=
  { x := b.x - margin, y := b.y - margin,
    width := roundUpMultiple (b.width + 2 * margin) multiple,
    height := roundUpMultiple (b.height + 2 * margin) multiple }

/-- Modelled from the spec: `Bounds.clamp` of image.py (missing from src):
intersect the rectangle with `[0, extent.width) × [0, extent.height)`; a
rectangle fully outside the extent degenerates to an empty one. -/
def Bounds.clamp (b : Bounds) (e : Extent) : Bounds :=
  let x0 := max b.x 0
  let y0 := max b.y 0
  let x1 := min (b.x + (b.width : ℤ)) (e.width : ℤ)
  let y1 := min (b.y + (b.height : ℤ)) (e.height : ℤ)
  { x := x0, y := y0, width := (x1 - x0).toNat, height := (y1 - y0).toNat }

/-- A single-channel mask region (`Mask` of image.py): bounds plus the raw
selection-channel bytes. -/
structure Mask where
  bounds : Bounds
  data : List ℕ
deriving DecidableEq

/-- Host selection object: its bounds (`x()`, `y()`, `width()`, `height()`)
plus the selection-channel bytes the host returns for a requested rectangle
(`selection.pixelData(*bounds)`). -/
structure Selection where
  x : ℤ
  y : ℤ
  width : ℕ
  height : ℕ
  pixelData : Bounds → List ℕ

/-- Host operations applied to a (duplicated) selection: `selection.grow(x, y)`
and `selection.feather(radius)`.  They are external Krita calls, so the
embedding takes them as parameters. -/
structure SelectionOps where
  grow : ℕ → ℕ → Selection → Selection
  feather : ℕ → Selection → Selection

/-- Host document state read by `Document`: pixel size, color mode strings and
the current user selection (none when no selection exists). -/
structure Document where
  width : ℕ
  height : ℕ
  colorModel : String
  colorDepth : String
  selection : Option Selection

/-- `Document.extent` (document.py lines 20-22). -/
def Document.extent (doc : Document) : Extent := ⟨doc.width, doc.height⟩

/-- Message format of `Document.check_color_mode` (document.py line 34),
with the attribute name substituted for both occurrences of `{0}`. -/
def msg_fmt (attr required current : String) : String :=
  "Incompatible document: Color " ++ attr ++ " must be " ++ required ++
    " (current " ++ attr ++ ": " ++ current ++ ")"

/-- `Document.check_color_mode` (document.py lines 32-40). -/
def Document.check_color_mode (doc : Document) : Bool × Option String :=
  if doc.colorModel ≠ "RGBA" then (false, some (msg_fmt "model" "RGB/Alpha" doc.colorModel))
  else if doc.colorDepth ≠ "U8" then (false, some (msg_fmt "depth" "8-bit integer" doc.colorDepth))
  else (true, none)

/-- `_selection_is_entire_document` (document.py lines 155-163).  Note the code
rejects only a strictly positive origin (`x > 0 or y > 0`) and only a size
falling short of the document (`width + x < extent.width` …), so selections
starting at or before the origin and covering at least the document count as
`entire`. -/
def _selection_is_entire_document (selection : Selection) (extent : Extent) : Bool :=
  let bounds : Bounds := ⟨selection.x, selection.y, selection.width, selection.height⟩
  if bounds.x > 0 ∨ bounds.y > 0 then false
  else if (bounds.width : ℤ) + bounds.x < (extent.width : ℤ) ∨
      (bounds.height : ℤ) + bounds.y < (extent.height : ℤ) then false
  else (selection.pixelData bounds).all (fun v => v == 0xFF)

/-- Modelled from the spec: `Extent.diagonal` of image.py (missing from src) is
`sqrt(width² + height²)`, and for `0 ≤ q` the Python expression
`int(q * sqrt(n))` equals `⌊q * sqrt(n)⌋`, computed here exactly as
`Nat.sqrt (num² * n) / den` (the agreement is `pyIntMulSqrt_eq_floor` below). -/
def pyIntMulSqrt (q : ℚ) (n : ℕ) : ℕ := Nat.sqrt (q.num.toNat ^ 2 * n) / q.den

/-- `Document.create_mask_from_selection` (document.py lines 42-64).  The
Python `user_selection.duplicate()` yields a copy whose mutation cannot reach
the host's live selection; in this value-level embedding the duplicate is the
value itself and each host mutation rebinds the local copy. -/
def Document.create_mask_from_selection (ops : SelectionOps) (doc : Document)
    (grow feather : ℚ) : Option Mask :=
  match doc.selection with
  | none => none
  | some user_selection =>
    if _selection_is_entire_document user_selection doc.extent then none
    else
      let selection := user_selection
      let size_factor_sq := selection.width ^ 2 + selection.height ^ 2
      let grow_pixels := pyIntMulSqrt grow size_factor_sq
      let feather_radius := pyIntMulSqrt feather size_factor_sq
      let selection1 := if 0 < grow_pixels then ops.grow grow_pixels grow_pixels selection else selection
      let selection2 := if 0 < feather_radius then ops.feather feather_radius selection1 else selection1
      let bounds0 : Bounds := ⟨selection2.x, selection2.y, selection2.width, selection2.height⟩
      let bounds1 := Bounds.pad bounds0 feather_radius 8
      let bounds2 := Bounds.clamp bounds1 doc.extent
      some ⟨bounds2, selection2.pixelData bounds2⟩

/-- Host calls issued by `Document.get_image`, in order: toggling the excluded
layer, forcing a recomposite, and the pixel read for some bounds. -/
inductive GIEvent where
  | setVisible (visible : Bool)
  | refreshProjection
  | readPixels (bounds : Bounds)
deriving DecidableEq

/-- Outcome of `Document.get_image`: whether the call returned normally
(`returned = false` means the pixel-read step raised and the exception
propagated), the excluded layer's visibility at exit (none when no
`exclude_layer` was passed), and the host calls issued. -/
structure GIResult where
  returned : Bool
  finalVisible : Option Bool
  events : List GIEvent
deriving DecidableEq

/-- `Document.get_image` (document.py lines 66-80).  `excludeVisible` is the
visibility of the `exclude_layer` argument (none when the argument is absent),
`readOk` tells whether the pixel-read step succeeds; the Python body has no
try/finally, so a raising read exits before the restore lines 77-79 run. -/
def Document.get_image (doc : Document) (bounds : Option Bounds)
    (excludeVisible : Option Bool) (readOk : Bool) : GIResult :=
  let hidden :=
    match excludeVisible with
    | some true => ((some false : Option Bool), [GIEvent.setVisible false, GIEvent.refreshProjection], true)
    | some false => (some false, [], false)
    | none => (none, [], false)
  let restore_layer := hidden.2.2
  let b := bounds.getD ⟨0, 0, doc.width, doc.height⟩
  let events := hidden.2.1 ++ [GIEvent.readPixels b]
  if readOk = false then ⟨false, hidden.1, events⟩
  else if restore_layer then
    ⟨true, some true, events ++ [GIEvent.setVisible true, GIEvent.refreshProjection]⟩
  else ⟨true, hidden.1, events⟩

/-- A 4-channel pixel buffer (`Image` of image.py). -/
structure Image where
  extent : Extent
  data : List ℕ
deriving DecidableEq

/-- Modelled from the spec: `Image.create` of image.py (missing from src): a
buffer of `pixel_count * 4` bytes, every byte equal to `fill`. -/
def Image.create (e : Extent) (fill : ℕ) : Image :=
  ⟨e, List.replicate (e.pixel_count * 4) fill⟩

/-- Host layer node state touched by `set_layer_content` / `hide_layer`:
its current bounds and visibility. -/
structure Layer where
  bounds : Bounds
  visible : Bool
deriving DecidableEq

/-- One `layer.setPixelData(data, *bounds)` host call. -/
structure PixelWrite where
  data : List ℕ
  bounds : Bounds
deriving DecidableEq

/-- Outcome of `Document.set_layer_content`: the layer's final state, the pixel
writes issued in order, and the number of `refreshProjection` calls. -/
structure SLCResult where
  layer : Layer
  writes : List PixelWrite
  recomposites : ℕ
deriving DecidableEq

/-- `Document.set_layer_content` (document.py lines 106-115). -/
def Document.set_layer_content (layer : Layer) (img : Image) (bounds : Bounds) : SLCResult :=
  let layer_bounds := layer.bounds
  let writes :=
    if layer_bounds ≠ bounds then
      [⟨(Image.create layer_bounds.extent 0).data, layer_bounds⟩, ⟨img.data, bounds⟩]
    else [⟨img.data, bounds⟩]
  ⟨{ layer with visible := true }, writes, 1⟩

/-- `Document.hide_layer` (document.py lines 117-120): the layer is made
invisible and one recomposite is forced. -/
def Document.hide_layer (layer : Layer) : Layer × ℕ :=
  ({ layer with visible := false }, 1)

/-- Python `nodes.index(v)` on the sibling list: index of the first occurrence. -/
def pyIndex : List ℕ → ℕ → ℕ
  | [], _ => 0
  | x :: xs, v => if x = v then 0 else pyIndex xs v + 1

/-- `_find_layer_above` (document.py lines 146-152).  Nodes are identified by
their unique id; the `Except` error models the `ValueError` Python's
`list.index` raises when the reference layer is not among the siblings. -/
def _find_layer_above (nodes : List ℕ) (layer_below : Option ℕ) : Except Unit (Option ℕ) :=
  match layer_below with
  | none => Except.ok none
  | some lb =>
    if lb ∈ nodes then
      let index := pyIndex nodes lb
      if 1 ≤ index then Except.ok nodes[index - 1]? else Except.ok none
    else Except.error ()

/-- Place `child` directly after the first occurrence of `anchor`. -/
def insertBelowAnchor : List ℕ → ℕ → ℕ → List ℕ
  | [], _, child => [child]
  | x :: xs, anchor, child =>
    if x = anchor then x :: child :: xs else x :: insertBelowAnchor xs anchor child

/-- Modelled from the spec: the host's `rootNode().addChildNode(child, above)`
(Krita, external): siblings are listed topmost first, the child is placed
directly below the `above` anchor, and with no anchor it becomes the topmost
sibling (spec sections 4.3 and 6: new layers land directly above the reference
found at the immediately preceding sibling index, or at the top). -/
def addChildNode (nodes : List ℕ) (child : ℕ) (above : Option ℕ) : List ℕ :=
  match above with
  | none => child :: nodes
  | some a => insertBelowAnchor nodes a child

/-- `Document.insert_layer` (document.py lines 88-96), restricted to the
sibling ordering it produces: the freshly created node is added among the
root's children at the anchor computed by `_find_layer_above`.  The same
anchor logic is shared verbatim by `insert_vector_layer` (lines 98-104). -/
def Document.insert_layer (nodes : List ℕ) (newLayer : ℕ) (below : Option ℕ) :
    Except Unit (List ℕ) :=
  match _find_layer_above nodes below with
  | Except.error e => Except.error e
  | Except.ok above => Except.ok (addChildNode nodes newLayer above)

/-- Host layer node as seen by the pose loop: unique id, kind tag, shapes. -/
structure LayerNode (Shape : Type) where
  id : ℕ
  type : String
  shapes : List Shape

/-- Host active document as seen by the pose loop: extent, resolution and the
active layer (none when no layer is active). -/
structure ActiveDoc (Shape : Type) where
  extent : Extent
  resolution : ℚ
  activeLayer : Option (LayerNode Shape)

/-- A tracked entry of the pose-model map: the extent the `Pose` object was
constructed from, and its current internal skeleton state.  The skeleton model
(`pose.py`) is an external collaborator, so its state type is a parameter. -/
structure Pose (σ : Type) where
  seed : Extent
  st : σ

/-- External skeleton-model behavior: `Pose(extent)` construction and
`pose.update(shapes, resolution)`, which mutates the pose state and returns
the incremental SVG changes (none when nothing changed). -/
structure PoseOps (Shape σ : Type) where
  init : Extent → σ
  update : σ → List Shape → ℚ → σ × Option String

/-- Lookup in the pose-model map (keyed by layer unique id). -/
def lookupPose {σ : Type} : List (ℕ × Pose σ) → ℕ → Option (Pose σ)
  | [], _ => none
  | (k, p) :: rest, id => if k = id then some p else lookupPose rest id

/-- Store a value for a key in the pose-model map: the first entry with that
key is updated in place, a missing key is appended (Python dict semantics of
`setdefault` followed by in-place mutation of the stored object). -/
def setPose {σ : Type} : List (ℕ × Pose σ) → ℕ → Pose σ → List (ℕ × Pose σ)
  | [], id, p => [(id, p)]
  | (k, q) :: rest, id, p => if k = id then (k, p) :: rest else (k, q) :: setPose rest id p

/-- `PoseLayers.update` (document.py lines 175-186): one timer tick.  Returns
the new pose-model map and the SVG write issued (layer id and fragment), none
when no write happened. -/
def PoseLayers.update {Shape σ : Type} (ops : PoseOps Shape σ)
    (m : List (ℕ × Pose σ)) (doc : Option (ActiveDoc Shape)) :
    List (ℕ × Pose σ) × Option (ℕ × String) :=
  match doc with
  | none => (m, none)
  | some d =>
    match d.activeLayer with
    | none => (m, none)
    | some layer =>
      if layer.type ≠ "vectorlayer" then (m, none)
      else
        let pose := (lookupPose m layer.id).getD ⟨d.extent, ops.init d.extent⟩
        let r := ops.update pose.st layer.shapes d.resolution
        let m2 := setPose m layer.id ⟨pose.seed, r.1⟩
        (m2, r.2.map (fun c => (layer.id, c)))

/-- A sequence of timer ticks of the pose loop, threading the map. -/
def runTicks {Shape σ : Type} (ops : PoseOps Shape σ) :
    List (ℕ × Pose σ) → List (Option (ActiveDoc Shape)) → List (ℕ × Pose σ)
  | m, [] => m
  | m, e :: rest => runTicks ops (PoseLayers.update ops m e).1 rest

/-- Whether a tick environment observes layer id `id` as the active vector
layer; if so, yields the then-active document's extent. -/
def observes {Shape : Type} (env : Option (ActiveDoc Shape)) (id : ℕ) : Option Extent :=
  match env with
  | none => none
  | some d =>
    match d.activeLayer with
    | none => none
    | some layer =>
      if layer.type = "vectorlayer" ∧ layer.id = id then some d.extent else none

/-- Extent of the active document at the first tick that observes `id` as the
active vector layer, none if no tick in the sequence does. -/
def firstSeen {Shape : Type} : List (Option (ActiveDoc Shape)) → ℕ → Option Extent
  | [], _ => none
  | e :: rest, id =>
    match observes e id with
    | some ext => some ext
    | none => firstSeen rest id

/-! Concrete host states used to exercise the theorems below. -/

/-- Selection ops that leave the selection untouched (any host behavior is
admissible for the theorems quantifying over `SelectionOps`). -/
def opsId : SelectionOps := ⟨fun _ _ s => s, fun _ s => s⟩

/-- A document in CMYK color. -/
def docCMYK : Document := ⟨4, 4, "CMYK", "U8", none⟩

/-- A fully opaque selection with a negative origin covering a 4×4 document. -/
def selNeg : Selection := ⟨-1, 0, 5, 4, fun b => List.replicate (b.width * b.height) 0xFF⟩

/-- A 4×4 document whose selection is `selNeg`. -/
def docNeg : Document := ⟨4, 4, "RGBA", "U8", some selNeg⟩

/-- A fully opaque 2×2 selection strictly inside a 4×4 document. -/
def selSmall : Selection := ⟨1, 1, 2, 2, fun b => List.replicate (b.width * b.height) 0xFF⟩

/-- A 4×4 document whose selection is `selSmall`. -/
def docSmall : Document := ⟨4, 4, "RGBA", "U8", some selSmall⟩

/-- A 4×4 document with no selection. -/
def docPlain : Document := ⟨4, 4, "RGBA", "U8", none⟩

/-- A 3×4 selection at x = 1 inside a 10×10 document (diagonal 5). -/
def selW : Selection := ⟨1, 0, 3, 4, fun b => List.replicate (b.width * b.height) 9⟩

/-- The 10×10 document whose selection is `selW`. -/
def docW : Document := ⟨10, 10, "RGBA", "U8", some selW⟩

/-- A hidden layer with bounds at the origin. -/
def layerA : Layer := ⟨⟨0, 0, 2, 2⟩, false⟩

/-- A 2×2 image. -/
def imgA : Image := ⟨⟨2, 2⟩, List.replicate 16 7⟩

/-- Bounds different from `layerA.bounds`. -/
def boundsB : Bounds := ⟨1, 1, 2, 2⟩

/-- Trivial pose-model behavior over unit state. -/
def opsUnit : PoseOps Unit Unit := ⟨fun _ => (), fun s _ _ => (s, none)⟩

/-- An active document with no active layer. -/
def docNoLayer : ActiveDoc Unit := ⟨⟨3, 3⟩, 1, none⟩

/-- Pose-model behavior counting updates over a ℕ state. -/
def opsCount : PoseOps Unit ℕ := ⟨fun _ => 0, fun s _ _ => (s + 1, none)⟩

/-- An active 7×9 document whose active layer is the vector layer with id 5. -/
def docObs : ActiveDoc Unit := ⟨⟨7, 9⟩, 1, some ⟨5, "vectorlayer", []⟩⟩

/-! Theorems. -/

/-- C6: `check_color_mode` returns `(true, none)` exactly when the color model
is "RGBA" and the depth is "U8"; otherwise it returns false with a message
built from the offending attribute's name, required value and actual value,
and the model is checked before the depth. -/
theorem check_color_mode_ok_iff (doc : Document) :
    (doc.check_color_mode = (true, none) ↔ doc.colorModel = "RGBA" ∧ doc.colorDepth = "U8")
    ∧ (doc.colorModel ≠ "RGBA" →
        doc.check_color_mode = (false, some (msg_fmt "model" "RGB/Alpha" doc.colorModel)))
    ∧ (doc.colorModel = "RGBA" → doc.colorDepth ≠ "U8" →
        doc.check_color_mode = (false, some (msg_fmt "depth" "8-bit integer" doc.colorDepth))) := by
  by_cases hm : doc.colorModel = "RGBA" <;> by_cases hd : doc.colorDepth = "U8" <;>
    simp [Document.check_color_mode, hm, hd]

/-- C6 witness: a CMYK document is reported through the model message. -/
theorem check_color_mode_ok_iff_witness :
    Document.check_color_mode docCMYK = (false, some (msg_fmt "model" "RGB/Alpha" "CMYK")) :=
  (check_color_mode_ok_iff docCMYK).2.1 (by decide)

/-- C3: when the new bounds differ from the layer's current bounds,
`set_layer_content` first blank-fills the layer's entire prior bounds and then
writes the new data; when the bounds are equal, exactly one pixel write is
performed, covering exactly the new data. -/
theorem set_layer_content_blank_fill (layer : Layer) (img : Image) (bounds : Bounds) :
    (layer.bounds ≠ bounds →
      (Document.set_layer_content layer img bounds).writes =
        [⟨(Image.create layer.bounds.extent 0).data, layer.bounds⟩, ⟨img.data, bounds⟩])
    ∧ (layer.bounds = bounds →
      (Document.set_layer_content layer img bounds).writes = [⟨img.data, bounds⟩]) := by
  constructor <;> intro h <;> simp [Document.set_layer_content, h]

/-- C3 witness: both branches at concrete layer, image and bounds. -/
theorem set_layer_content_blank_fill_witness :
    (Document.set_layer_content layerA imgA boundsB).writes =
      [⟨(Image.create layerA.bounds.extent 0).data, layerA.bounds⟩, ⟨imgA.data, boundsB⟩]
    ∧ (Document.set_layer_content layerA imgA layerA.bounds).writes =
      [⟨imgA.data, layerA.bounds⟩] :=
  ⟨(set_layer_content_blank_fill layerA imgA boundsB).1 (by decide),
   (set_layer_content_blank_fill layerA imgA layerA.bounds).2 rfl⟩

/-- C10: every `set_layer_content` call leaves the target layer visible and
forces exactly one recomposite before returning, for any prior visibility
(in particular for a layer previously hidden by `hide_layer`) and whether or
not the bounds changed. -/
theorem set_layer_content_shows_layer (layer : Layer) (img : Image) (bounds : Bounds) :
    (Document.set_layer_content layer img bounds).layer.visible = true
    ∧ (Document.set_layer_content layer img bounds).recomposites = 1
    ∧ (Document.set_layer_content (Document.hide_layer layer).1 img bounds).layer.visible = true :=
  ⟨rfl, rfl, rfl⟩

/-- C2: evaluation of `get_image` at the failing input: the exclude layer is
visible and the pixel-read step raises.  The code hides the layer and
recomposites, then propagates the exception without running the restore
lines, leaving the layer invisible — against the specified contract that
visibility is restored on every exit path. -/
theorem get_image_read_failure_leaves_hidden :
    Document.get_image docPlain none (some true) false =
      ⟨false, some false,
        [GIEvent.setVisible false, GIEvent.refreshProjection, GIEvent.readPixels ⟨0, 0, 4, 4⟩]⟩ :=
  rfl

/-- C7: a pose tick with no active document, no active layer, or an active
layer that is not a vector layer leaves the pose-model map unchanged, issues
no SVG write, and returns normally. -/
theorem pose_tick_noop {Shape σ : Type} (ops : PoseOps Shape σ) (m : List (ℕ × Pose σ)) :
    PoseLayers.update ops m none = (m, none)
    ∧ (∀ d : ActiveDoc Shape, d.activeLayer = none →
        PoseLayers.update ops m (some d) = (m, none))
    ∧ (∀ (d : ActiveDoc Shape) (layer : LayerNode Shape), d.activeLayer = some layer →
        layer.type ≠ "vectorlayer" → PoseLayers.update ops m (some d) = (m, none)) := by
  refine ⟨rfl, ?_, ?_⟩
  · intro d hd
    simp [PoseLayers.update, hd]
  · intro d layer hd ht
    simp [PoseLayers.update, hd, ht]

/-- C7 witness: a tick on a document with no active layer is a no-op. -/
theorem pose_tick_noop_witness :
    PoseLayers.update opsUnit ([] : List (ℕ × Pose Unit)) (some docNoLayer) = ([], none) :=
  (pose_tick_noop opsUnit []).2.1 docNoLayer rfl

/-- Characterization of `_selection_is_entire_document`: the code accepts any
selection whose origin is at or before (0,0) and whose far edge reaches at
least the document's, with every sampled byte 0xFF. -/
theorem selection_entire_iff (sel : Selection) (e : Extent) :
    _selection_is_entire_document sel e = true ↔
      sel.x ≤ 0 ∧ sel.y ≤ 0 ∧ (e.width : ℤ) ≤ (sel.width : ℤ) + sel.x ∧
      (e.height : ℤ) ≤ (sel.height : ℤ) + sel.y ∧
      (sel.pixelData ⟨sel.x, sel.y, sel.width, sel.height⟩).all (fun v => v == 0xFF) = true := by
  dsimp only [_selection_is_entire_document]
  split_ifs with h1 h2
  · simp only [Bool.false_eq_true, false_iff]
    rintro ⟨hx, hy, -, -, -⟩
    rcases h1 with h | h <;> omega
  · simp only [Bool.false_eq_true, false_iff]
    rintro ⟨-, -, hw, hh, -⟩
    rcases h2 with h | h <;> omega
  · push_neg at h1 h2
    constructor
    · intro h
      exact ⟨h1.1, h1.2, h2.1, h2.2, h⟩
    · rintro ⟨-, -, -, -, h⟩
      exact h

/-- C1 counterexample: a fully opaque selection whose bounds do not start at
the origin (x = -1) but cover the 4×4 document still makes
`create_mask_from_selection` return none, so "returns none exactly when the
bounds start at the origin and extend to the full size with all pixels opaque"
fails as stated. -/
theorem create_mask_none_counterexample :
    Document.create_mask_from_selection opsId docNeg 0 0 = none
    ∧ docNeg.selection = some selNeg ∧ selNeg.x ≠ 0 :=
  ⟨rfl, rfl, by decide⟩

/-- C1 amended: for every grow and feather, `create_mask_from_selection`
returns none exactly when either no selection exists, or the selection's
bounds start at or before the origin and extend at least to the document's
full width and height and every sampled selection pixel equals 0xFF; in
particular a selection strictly smaller than the document, even if fully
opaque, yields a non-none Mask. -/
theorem create_mask_none_iff (ops : SelectionOps) (doc : Document) (grow feather : ℚ) :
    (Document.create_mask_from_selection ops doc grow feather = none ↔
      doc.selection = none ∨ ∃ sel, doc.selection = some sel ∧
        sel.x ≤ 0 ∧ sel.y ≤ 0 ∧ (doc.width : ℤ) ≤ (sel.width : ℤ) + sel.x ∧
        (doc.height : ℤ) ≤ (sel.height : ℤ) + sel.y ∧
        (sel.pixelData ⟨sel.x, sel.y, sel.width, sel.height⟩).all (fun v => v == 0xFF) = true)
    ∧ (∀ sel, doc.selection = some sel →
        sel.width < doc.width ∨ sel.height < doc.height →
        (Document.create_mask_from_selection ops doc grow feather).isSome = true) := by
  constructor
  · rcases hsel : doc.selection with _ | sel
    · simp [Document.create_mask_from_selection, hsel]
    · simp only [Document.create_mask_from_selection, hsel]
      rcases hfull : _selection_is_entire_document sel doc.extent with _ | _
      · refine iff_of_false (by simp [hfull]) ?_
        rintro (h | ⟨sel2, hsel2, hcond⟩)
        · exact (Option.some_ne_none sel h).elim
        · have he : sel = sel2 := Option.some.inj hsel2
          subst he
          exact absurd ((selection_entire_iff sel doc.extent).mpr hcond)
            (by simp [hfull])
      · refine iff_of_true (by simp [hfull]) (Or.inr ⟨sel, rfl, ?_⟩)
        exact (selection_entire_iff sel doc.extent).mp hfull
  · intro sel hsel hsmall
    have hfull : _selection_is_entire_document sel doc.extent = false := by
      rcases Bool.eq_false_or_eq_true (_selection_is_entire_document sel doc.extent) with h | h
      · obtain ⟨hx, hy, hw, hh, -⟩ := (selection_entire_iff sel doc.extent).mp h
        have hw2 : (doc.width : ℤ) ≤ (sel.width : ℤ) + sel.x := hw
        have hh2 : (doc.height : ℤ) ≤ (sel.height : ℤ) + sel.y := hh
        rcases hsmall with hs | hs <;> omega
      · exact h
    simp [Document.create_mask_from_selection, hsel, hfull]

/-- C1 amended witness: the strictly smaller opaque selection of `docSmall`
yields a Mask. -/
theorem create_mask_none_iff_witness :
    (Document.create_mask_from_selection opsId docSmall 0 0).isSome = true :=
  (create_mask_none_iff opsId docSmall 0 0).2 selSmall rfl (Or.inl (by decide))

/-- C5: with grow = 0 and feather = 0 and a selection that does not cover the
whole document, the Mask's bounds are the selection bounds padded with margin
0 (still rounded up to a multiple of 8) and clamped to the document extent,
and its data is read from the unmodified original selection (no grow or
feather transformation is applied). -/
theorem create_mask_zero_grow_feather (ops : SelectionOps) (doc : Document) (sel : Selection)
    (hsel : doc.selection = some sel)
    (hfull : _selection_is_entire_document sel doc.extent = false) :
    Document.create_mask_from_selection ops doc 0 0 =
      some ⟨Bounds.clamp (Bounds.pad ⟨sel.x, sel.y, sel.width, sel.height⟩ 0 8) doc.extent,
        sel.pixelData
          (Bounds.clamp (Bounds.pad ⟨sel.x, sel.y, sel.width, sel.height⟩ 0 8) doc.extent)⟩ := by
  have h0 : ∀ n, pyIntMulSqrt 0 n = 0 := by
    intro n
    simp [pyIntMulSqrt]
  simp [Document.create_mask_from_selection, hsel, hfull, h0]

/-- C5 witness: concrete 2×2 selection in the 4×4 document. -/
theorem create_mask_zero_grow_feather_witness :
    Document.create_mask_from_selection opsId docSmall 0 0 =
      some ⟨Bounds.clamp (Bounds.pad ⟨1, 1, 2, 2⟩ 0 8) docSmall.extent,
        selSmall.pixelData (Bounds.clamp (Bounds.pad ⟨1, 1, 2, 2⟩ 0 8) docSmall.extent)⟩ :=
  create_mask_zero_grow_feather opsId docSmall selSmall rfl (by decide)

/-- Exactness of the executable square-root computation: for a nonnegative
rational factor, `pyIntMulSqrt q n` is the floor of `q * sqrt n` over the
reals, i.e. the spec's `floor(fraction * diagonal)`. -/
theorem pyIntMulSqrt_eq_floor (q : ℚ) (hq : 0 ≤ q) (n : ℕ) :
    pyIntMulSqrt q n = ⌊(q : ℝ) * Real.sqrt n⌋₊ := by
  have h1 : (q.num.toNat : ℤ) = q.num := Int.toNat_of_nonneg (Rat.num_nonneg.mpr hq)
  have hcast : (q : ℝ) = (q.num.toNat : ℝ) / (q.den : ℝ) := by
    rw [Rat.cast_def]
    congr 1
    exact_mod_cast h1.symm
  have hsq : (q.num.toNat : ℝ) * Real.sqrt n = Real.sqrt ((q.num.toNat ^ 2 * n : ℕ) : ℝ) := by
    push_cast
    rw [Real.sqrt_mul (by positivity) ((n : ℕ) : ℝ), Real.sqrt_sq (by positivity)]
  rw [pyIntMulSqrt, hcast, div_mul_eq_mul_div, hsq, Nat.floor_div_nat,
    Real.nat_floor_real_sqrt_eq_nat_sqrt]

/-- C4: past the full-document check, the mask pipeline follows the spec
formulas exactly: grow and feather pixel counts are the floors of the given
fractions times the selection extent's diagonal, the host dilation is invoked
only when the grow count is positive and the feather only when its radius is
positive, and the final bounds are the (possibly transformed) selection's
bounds padded by the feather radius to a multiple of 8 and clamped to the
document extent, with the mask data read for those bounds.  The live user
selection is untouched: only the duplicate passes through the host
operations. -/
theorem create_mask_pipeline (ops : SelectionOps) (doc : Document) (grow feather : ℚ)
    (sel : Selection) (hg : 0 ≤ grow) (hf : 0 ≤ feather)
    (hsel : doc.selection = some sel)
    (hfull : _selection_is_entire_document sel doc.extent = false) :
    Document.create_mask_from_selection ops doc grow feather =
      (let g := ⌊(grow : ℝ) * Real.sqrt ((sel.width : ℝ) ^ 2 + (sel.height : ℝ) ^ 2)⌋₊
       let f := ⌊(feather : ℝ) * Real.sqrt ((sel.width : ℝ) ^ 2 + (sel.height : ℝ) ^ 2)⌋₊
       let s1 := if 0 < g then ops.grow g g sel else sel
       let s2 := if 0 < f then ops.feather f s1 else s1
       let b := Bounds.clamp (Bounds.pad ⟨s2.x, s2.y, s2.width, s2.height⟩ f 8) doc.extent
       some ⟨b, s2.pixelData b⟩) := by
  have hdiag : ((sel.width ^ 2 + sel.height ^ 2 : ℕ) : ℝ) =
      (sel.width : ℝ) ^ 2 + (sel.height : ℝ) ^ 2 := by
    push_cast
    ring
  have hgp : pyIntMulSqrt grow (sel.width ^ 2 + sel.height ^ 2) =
      ⌊(grow : ℝ) * Real.sqrt ((sel.width : ℝ) ^ 2 + (sel.height : ℝ) ^ 2)⌋₊ := by
    rw [pyIntMulSqrt_eq_floor grow hg, hdiag]
  have hfp : pyIntMulSqrt feather (sel.width ^ 2 + sel.height ^ 2) =
      ⌊(feather : ℝ) * Real.sqrt ((sel.width : ℝ) ^ 2 + (sel.height : ℝ) ^ 2)⌋₊ := by
    rw [pyIntMulSqrt_eq_floor feather hf, hdiag]
  simp only [Document.create_mask_from_selection, hsel, hfull, Bool.false_eq_true,
    if_false, hgp, hfp]

/-- C4 witness: grow = feather = 1/2 on the 3×4 selection of `docW`
(diagonal 5, so both pixel counts are 2). -/
theorem create_mask_pipeline_witness :
    Document.create_mask_from_selection opsId docW (1/2) (1/2) =
      (let g := ⌊((1/2 : ℚ) : ℝ) * Real.sqrt ((selW.width : ℝ) ^ 2 + (selW.height : ℝ) ^ 2)⌋₊
       let f := ⌊((1/2 : ℚ) : ℝ) * Real.sqrt ((selW.width : ℝ) ^ 2 + (selW.height : ℝ) ^ 2)⌋₊
       let s1 := if 0 < g then opsId.grow g g selW else selW
       let s2 := if 0 < f then opsId.feather f s1 else s1
       let b := Bounds.clamp (Bounds.pad ⟨s2.x, s2.y, s2.width, s2.height⟩ f 8) docW.extent
       some ⟨b, s2.pixelData b⟩) :=
  create_mask_pipeline opsId docW (1/2) (1/2) selW (by norm_num) (by norm_num) rfl (by decide)

/-- Index of the first occurrence behind a prefix avoiding the element. -/
theorem pyIndex_append (A : List ℕ) (L : ℕ) (B : List ℕ) (h : L ∉ A) :
    pyIndex (A ++ L :: B) L = A.length := by
  induction A with
  | nil => simp [pyIndex]
  | cons x xs ih =>
    have hx : x ≠ L := fun e => h (e ▸ List.mem_cons_self x xs)
    have hxs : L ∉ xs := fun hm => h (List.mem_cons_of_mem x hm)
    simp [pyIndex, hx, ih hxs]


/-- Element lookup at the length of the leading run. -/
theorem getElem_opt_append_length (C : List ℕ) (a : ℕ) (D : List ℕ) :
    (C ++ a :: D)[C.length]? = some a := by
  induction C with
  | nil => simp
  | cons x xs ih => simpa using ih

/-- Behavior of `insertBelowAnchor` when the anchor occurs once past a clean
prefix. -/
theorem insertBelowAnchor_append (C : List ℕ) (a : ℕ) (D : List ℕ) (child : ℕ)
    (h : a ∉ C) :
    insertBelowAnchor (C ++ a :: D) a child = C ++ a :: child :: D := by
  induction C with
  | nil => simp [insertBelowAnchor]
  | cons x xs ih =>
    have hx : x ≠ a := fun e => h (e ▸ List.mem_cons_self x xs)
    have hxs : a ∉ xs := fun hm => h (List.mem_cons_of_mem x hm)
    simp [insertBelowAnchor, hx, ih hxs]

/-- C8: inserting with `below = L` places the new layer immediately above `L`
in the sibling order (anchored at the immediately preceding sibling), and
inserting with no reference layer makes the new layer the topmost sibling. -/
theorem insert_layer_above (A B : List ℕ) (L newLayer : ℕ)
    (hnd : (A ++ L :: B).Nodup) :
    Document.insert_layer (A ++ L :: B) newLayer (some L) =
      Except.ok (A ++ newLayer :: L :: B)
    ∧ ∀ (nodes : List ℕ) (nl : ℕ),
        Document.insert_layer nodes nl none = Except.ok (nl :: nodes) := by
  constructor
  · have hLA : L ∉ A := fun hmem =>
      (List.nodup_append.mp hnd).2.2 hmem (List.mem_cons_self L B)
    have hmem : L ∈ A ++ L :: B := List.mem_append_right A (List.mem_cons_self L B)
    have hidx := pyIndex_append A L B hLA
    rcases List.eq_nil_or_concat A with hA | ⟨C, a, hA⟩
    · subst hA
      simp only [List.nil_append] at hidx hmem ⊢
      have hfla : _find_layer_above (L :: B) (some L) = Except.ok none := by
        simp only [_find_layer_above]
        rw [if_pos hmem, hidx]
        rfl
      simp [Document.insert_layer, hfla, addChildNode]
    · rw [List.concat_eq_append] at hA
      subst hA
      have hnodes : (C ++ [a]) ++ L :: B = C ++ a :: (L :: B) := by simp
      have haC : a ∉ C := fun hm =>
        (List.nodup_append.mp ((List.nodup_append.mp hnd).1)).2.2 hm
          (List.mem_singleton.mpr rfl)
      have hlen : 1 ≤ (C ++ [a]).length := by
        simp only [List.length_append, List.length_singleton]
        omega
      have hlen2 : (C ++ [a]).length - 1 = C.length := by
        simp only [List.length_append, List.length_singleton]
        omega
      have hfla : _find_layer_above ((C ++ [a]) ++ L :: B) (some L) = Except.ok (some a) := by
        simp only [_find_layer_above]
        rw [if_pos hmem, hidx, if_pos hlen, hlen2, hnodes, getElem_opt_append_length]
      simp only [Document.insert_layer, hfla]
      simp only [addChildNode]
      rw [hnodes, insertBelowAnchor_append C a (L :: B) newLayer haC]
      simp
  · intro nodes nl
    rfl

/-- C8 witness: inserting 9 below-reference 3 among [1, 2, 3, 4] and with no
reference. -/
theorem insert_layer_above_witness :
    Document.insert_layer [1, 2, 3, 4] 9 (some 3) = Except.ok [1, 2, 9, 3, 4]
    ∧ Document.insert_layer [1, 2, 3, 4] 9 none = Except.ok [9, 1, 2, 3, 4] :=
  ⟨(insert_layer_above [1, 2] [4] 3 9 (by decide)).1,
   (insert_layer_above [1, 2] [4] 3 9 (by decide)).2 [1, 2, 3, 4] 9⟩

/-- Lookup after storing under the same key. -/
theorem lookupPose_setPose_self {σ : Type} (m : List (ℕ × Pose σ)) (id : ℕ) (p : Pose σ) :
    lookupPose (setPose m id p) id = some p := by
  induction m with
  | nil => simp [setPose, lookupPose]
  | cons hd tl ih =>
    obtain ⟨k, q⟩ := hd
    by_cases hk : k = id
    · simp [setPose, lookupPose, hk]
    · simp [setPose, lookupPose, hk, ih]

/-- Lookup after storing under a different key. -/
theorem lookupPose_setPose_ne {σ : Type} (m : List (ℕ × Pose σ)) (id id2 : ℕ) (p : Pose σ)
    (h : id2 ≠ id) :
    lookupPose (setPose m id p) id2 = lookupPose m id2 := by
  have h2 : ¬ id = id2 := Ne.symm h
  induction m with
  | nil => simp [setPose, lookupPose, h2]
  | cons hd tl ih =>
    obtain ⟨k, q⟩ := hd
    by_cases hk : k = id
    · simp [setPose, lookupPose, hk, h2]
    · simp [setPose, lookupPose, hk, ih]

/-- One tick keeps every tracked entry present with its original seed. -/
theorem update_step_preserves {Shape σ : Type} (ops : PoseOps Shape σ)
    (m : List (ℕ × Pose σ)) (env : Option (ActiveDoc Shape)) (id : ℕ) (p : Pose σ)
    (h : lookupPose m id = some p) :
    ∃ st2, lookupPose (PoseLayers.update ops m env).1 id = some ⟨p.seed, st2⟩ := by
  rcases env with _ | d
  · exact ⟨p.st, h⟩
  · rcases hal : d.activeLayer with _ | layer
    · exact ⟨p.st, by simpa [PoseLayers.update, hal] using h⟩
    · by_cases ht : layer.type = "vectorlayer"
      · by_cases hid : layer.id = id
        · refine ⟨(ops.update p.st layer.shapes d.resolution).1, ?_⟩
          simp [PoseLayers.update, hal, ht, hid, h, lookupPose_setPose_self]
        · have hne : id ≠ layer.id := fun e => hid e.symm
          exact ⟨p.st, by
            simpa [PoseLayers.update, hal, ht, lookupPose_setPose_ne _ _ _ _ hne] using h⟩
      · exact ⟨p.st, by simpa [PoseLayers.update, hal, ht] using h⟩

/-- One tick that does not observe `id` never creates an entry for it. -/
theorem update_step_absent {Shape σ : Type} (ops : PoseOps Shape σ)
    (m : List (ℕ × Pose σ)) (env : Option (ActiveDoc Shape)) (id : ℕ)
    (h : lookupPose m id = none) (hobs : observes env id = none) :
    lookupPose (PoseLayers.update ops m env).1 id = none := by
  rcases env with _ | d
  · exact h
  · rcases hal : d.activeLayer with _ | layer
    · simpa [PoseLayers.update, hal] using h
    · by_cases ht : layer.type = "vectorlayer"
      · have hid : layer.id ≠ id := by
          intro e
          simp [observes, hal, ht, e] at hobs
        have hne : id ≠ layer.id := fun e => hid e.symm
        simpa [PoseLayers.update, hal, ht, lookupPose_setPose_ne _ _ _ _ hne] using h
      · simpa [PoseLayers.update, hal, ht] using h

/-- One tick observing an untracked `id` creates its entry, seeded from the
then-active document's extent. -/
theorem update_step_creates {Shape σ : Type} (ops : PoseOps Shape σ)
    (m : List (ℕ × Pose σ)) (env : Option (ActiveDoc Shape)) (id : ℕ)
    (h : lookupPose m id = none) (ext : Extent) (hobs : observes env id = some ext) :
    ∃ st2, lookupPose (PoseLayers.update ops m env).1 id = some ⟨ext, st2⟩ := by
  rcases env with _ | d
  · simp [observes] at hobs
  · rcases hal : d.activeLayer with _ | layer
    · simp [observes, hal] at hobs
    · by_cases hcond : layer.type = "vectorlayer" ∧ layer.id = id
      · obtain ⟨ht, hid⟩ := hcond
        have hext : ext = d.extent := by
          simp [observes, hal, ht, hid] at hobs
          exact hobs.symm
        subst hext
        refine ⟨(ops.update (ops.init d.extent) layer.shapes d.resolution).1, ?_⟩
        simp [PoseLayers.update, hal, ht, hid, h, lookupPose_setPose_self]
      · simp [observes, hal, hcond] at hobs

/-- C9: over any tick sequence, tracked entries are never removed and their
seed extent is never replaced; an untracked id gains an entry exactly when
some tick observes it as the active vector layer — lazily, at the first such
tick, seeded from the then-active document's extent — and never otherwise. -/
theorem pose_map_monotone {Shape σ : Type} (ops : PoseOps Shape σ)
    (envs : List (Option (ActiveDoc Shape))) (m : List (ℕ × Pose σ)) :
    (∀ id p, lookupPose m id = some p →
      (lookupPose (runTicks ops m envs) id).map Pose.seed = some p.seed)
    ∧ (∀ id, lookupPose m id = none → firstSeen envs id = none →
        lookupPose (runTicks ops m envs) id = none)
    ∧ (∀ id ext, lookupPose m id = none → firstSeen envs id = some ext →
        (lookupPose (runTicks ops m envs) id).map Pose.seed = some ext) := by
  induction envs generalizing m with
  | nil =>
    refine ⟨?_, ?_, ?_⟩
    · intro id p h
      simp [runTicks, h]
    · intro id h _
      simpa [runTicks] using h
    · intro id ext _ hfs
      simp [firstSeen] at hfs
  | cons e rest ih =>
    refine ⟨?_, ?_, ?_⟩
    · intro id p h
      obtain ⟨st2, h2⟩ := update_step_preserves ops m e id p h
      have h3 := (ih (PoseLayers.update ops m e).1).1 id ⟨p.seed, st2⟩ h2
      simpa [runTicks] using h3
    · intro id h hfs
      have hobs : observes e id = none := by
        rcases ho : observes e id with _ | ext
        · rfl
        · simp [firstSeen, ho] at hfs
      have hrest : firstSeen rest id = none := by
        simpa [firstSeen, hobs] using hfs
      have h2 := update_step_absent ops m e id h hobs
      have h3 := (ih (PoseLayers.update ops m e).1).2.1 id h2 hrest
      simpa [runTicks] using h3
    · intro id ext h hfs
      rcases ho : observes e id with _ | ext0
      · have hrest : firstSeen rest id = some ext := by
          simpa [firstSeen, ho] using hfs
        have h2 := update_step_absent ops m e id h ho
        have h3 := (ih (PoseLayers.update ops m e).1).2.2 id ext h2 hrest
        simpa [runTicks] using h3
      · have hext : ext0 = ext := by
          simpa [firstSeen, ho] using hfs
        subst hext
        obtain ⟨st2, h2⟩ := update_step_creates ops m e id h ext0 ho
        have h3 := (ih (PoseLayers.update ops m e).1).1 id ⟨ext0, st2⟩ h2
        simpa [runTicks] using h3

/-- C9 witness: one tick observing vector layer 5 on a 7×9 document creates
its entry from the empty map, seeded with that extent. -/
theorem pose_map_monotone_witness :
    (lookupPose (runTicks opsCount [] [some docObs]) 5).map Pose.seed = some ⟨7, 9⟩ :=
  (pose_map_monotone opsCount [some docObs] []).2.2 5 ⟨7, 9⟩ rfl (by decide)
